import Mathlib

/-!
Shallow embedding of the document-registry backend (`src/app.py`) and proofs
about its data layer: authorization checks, document CRUD, the audit-log cap,
uploads, exports, login, and JSON loading.

Conventions of the embedding:
* A JSON object whose values are strings is modelled as an association list
  `Rec := List (String × String)`; a missing key is `none`, mirroring
  Python's `dict.get`.  Python dictionaries have unique keys and preserve
  insertion order; `Rec.insert` mirrors `d[k] = v` (replace in place, or
  append a fresh key at the end).
* `datetime.now()` is passed in explicitly as a `DateTime` value; the
  `strftime` format strings used by the code are modelled by `fmtId`
  (`%Y%m%d%H%M%S%f`), `fmtTs` (`%Y-%m-%d %H:%M:%S`), `fmtTs14`
  (`%Y%m%d%H%M%S`) and `isoFmt` (`datetime.isoformat`).
* File-system persistence (`save_json_file`, `file.save`) either succeeds or
  fails; the outcome is passed in as a `Bool` and the durable state is
  returned unchanged on failure.
* `bcrypt.hashpw` / `bcrypt.checkpw` are third-party and are passed in as
  function arguments.
-/

namespace Fundo

/-- Zero-padded decimal rendering of a natural number, modelling the fixed
width fields of `strftime` (`%Y` pads to 4, `%m`/`%d`/… to 2, `%f` to 6). -/
def padNum (w n : Nat) : String :=
  let s := toString n
  String.mk (List.replicate (w - s.length) '0') ++ s

/-- A wall-clock instant, the data `datetime.now()` provides to the
format strings used in `app.py`. -/
structure DateTime where
  year : Nat
  month : Nat
  day : Nat
  hour : Nat
  minute : Nat
  second : Nat
  microsecond : Nat
deriving DecidableEq, Repr

/-- `datetime.now().strftime("%Y%m%d%H%M%S%f")`: the id generator used for
documents, logs and export records (microsecond precision). -/
def fmtId (t : DateTime) : String :=
  padNum 4 t.year ++ padNum 2 t.month ++ padNum 2 t.day ++
  padNum 2 t.hour ++ padNum 2 t.minute ++ padNum 2 t.second ++
  padNum 6 t.microsecond

/-- `datetime.now().strftime("%Y-%m-%d %H:%M:%S")`: the human-readable
timestamp stored in log entries and export records. -/
def fmtTs (t : DateTime) : String :=
  padNum 4 t.year ++ "-" ++ padNum 2 t.month ++ "-" ++ padNum 2 t.day ++ " " ++
  padNum 2 t.hour ++ ":" ++ padNum 2 t.minute ++ ":" ++ padNum 2 t.second

/-- `datetime.now().strftime("%Y%m%d%H%M%S")`: the second-precision stamp
appended to a colliding upload filename. -/
def fmtTs14 (t : DateTime) : String :=
  padNum 4 t.year ++ padNum 2 t.month ++ padNum 2 t.day ++
  padNum 2 t.hour ++ padNum 2 t.minute ++ padNum 2 t.second

/-- `datetime.now().isoformat()`: the creation/update stamp written into
documents and users. -/
def isoFmt (t : DateTime) : String :=
  padNum 4 t.year ++ "-" ++ padNum 2 t.month ++ "-" ++ padNum 2 t.day ++ "T" ++
  padNum 2 t.hour ++ ":" ++ padNum 2 t.minute ++ ":" ++ padNum 2 t.second ++
  "." ++ padNum 6 t.microsecond

/-- A JSON-like record: a Python dict with string values, in insertion
order.  Documents and generic request bodies are of this shape. -/
abbrev Rec := List (String × String)

/-- `d.get(k)`: the value at the first occurrence of key `k`, if any. -/
def Rec.get? : Rec → String → Option String
  | [], _ => none
  | (k', v) :: rest, k => if k' = k then some v else Rec.get? rest k

/-- `d.get(k, dflt)`. -/
def Rec.getD (r : Rec) (k dflt : String) : String :=
  (r.get? k).getD dflt

/-- `k in d`. -/
def Rec.hasKey (r : Rec) (k : String) : Bool :=
  (r.get? k).isSome

/-- `d[k] = v`: replace the value at the (first occurrence of the) key in
place, or append a fresh key at the end, as a Python dict does. -/
def Rec.insert : Rec → String → String → Rec
  | [], k, v => [(k, v)]
  | (k', v') :: rest, k, v =>
    if k' = k then (k, v) :: rest else (k', v') :: Rec.insert rest k v

/-- A JSON response body together with its HTTP status code: the
`jsonify({"status": ..., "mensagem": ...}), code` pairs the routes return. -/
structure Resp where
  status : String
  mensagem : String
  code : Nat
deriving DecidableEq, Repr

/-- `can_modify(user_type)` from `app.py`: only `administrador` and
`editor` may modify data. -/
def can_modify (user_type : String) : Bool :=
  user_type = "administrador" || user_type = "editor"

/-- One entry of the audit log (`log_action`'s `new_log` dict). -/
structure LogEntry where
  id : String
  usuario : String
  acao : String
  detalhes : String
  timestamp : String
deriving DecidableEq, Repr

/-- `log_action(user, action, details)`: append one entry, then keep only
the last 1000 entries (`logs = logs[-1000:]`) before persisting. -/
def log_action (now : DateTime) (logs : List LogEntry)
    (user action details : String) : List LogEntry :=
  let logs := logs ++ [⟨fmtId now, user, action, details, fmtTs now⟩]
  if logs.length > 1000 then logs.drop (logs.length - 1000) else logs

/-- One call to `log_action`, with the clock reading at that call. -/
structure LogOp where
  now : DateTime
  user : String
  action : String
  details : String
deriving DecidableEq, Repr

/-- The entry a single `log_action` call constructs. -/
def LogOp.entry (op : LogOp) : LogEntry :=
  ⟨fmtId op.now, op.user, op.action, op.details, fmtTs op.now⟩

/-- A finite sequence of `log_action` calls, applied in order. -/
def run_log_actions (init : List LogEntry) (ops : List LogOp) : List LogEntry :=
  ops.foldl (fun logs op => log_action op.now logs op.user op.action op.details) init

/-- A stored user, as built by `register_user` (all four keys always
present). -/
structure User where
  usuario : String
  senha : String
  tipo : String
  created_at : String
deriving DecidableEq, Repr

/-- A login request body that passed
`validate_request_data(data, ["usuario", "senha"])`. -/
structure LoginReq where
  usuario : String
  senha : String
deriving DecidableEq, Repr

/-- The body of `login`'s response: `tipo` is set on success, `mensagem`
on failure. -/
structure LoginResp where
  status : String
  mensagem : String
  tipo : String
  code : Nat
deriving DecidableEq, Repr

/-- `login` from `app.py`: find the first user with the requested
username; check the password with `bcrypt.checkpw` (passed in as
`checkpw`); both the unknown-username and the wrong-password paths
answer 401 with the same body.  `none` models a request body that failed
`validate_request_data`. -/
def login (checkpw : String → String → Bool) (req : Option LoginReq)
    (users : List User) : LoginResp :=
  match req with
  | none => ⟨"erro", "No data provided", "", 400⟩
  | some r =>
    match users.find? (fun u => u.usuario = r.usuario) with
    | some u =>
      if checkpw r.senha u.senha then ⟨"ok", "", u.tipo, 200⟩
      else ⟨"erro", "Credenciais inválidas", "", 401⟩
    | none => ⟨"erro", "Credenciais inválidas", "", 401⟩

/-- A registration request body that passed
`validate_request_data(data, ["usuario", "senha", "tipo"])`;
`usuario_admin` is read with `data.get("usuario_admin", "")`. -/
structure RegisterReq where
  usuario : String
  senha : String
  tipo : String
  usuario_admin : String
deriving DecidableEq, Repr

/-- `register_user` from `app.py`: reject a duplicate username with 409,
otherwise hash the password (`hashpw` models `bcrypt.hashpw`), append the
new user and persist (`saveOk` is the outcome of `save_users`).  Note the
route performs no `can_modify` role check. -/
def register_user (hashpw : String → String) (now : DateTime)
    (req : Option RegisterReq) (users : List User) (saveOk : Bool) :
    Resp × List User :=
  match req with
  | none => (⟨"erro", "No data provided", 400⟩, users)
  | some r =>
    if users.any (fun u => u.usuario = r.usuario) then
      (⟨"erro", "Usuário já existe", 409⟩, users)
    else
      let newUser : User := ⟨r.usuario, hashpw r.senha, r.tipo, isoFmt now⟩
      if saveOk then
        (⟨"ok", "Usuário cadastrado com sucesso", 200⟩, users ++ [newUser])
      else (⟨"erro", "Erro ao salvar usuário", 500⟩, users)

/-- A delete-user request body that passed
`validate_request_data(data, ["usuario", "tipo_usuario", "usuario_admin"])`. -/
structure DeleteUserReq where
  usuario : String
  tipo_usuario : String
  usuario_admin : String
deriving DecidableEq, Repr

/-- `delete_user` from `app.py`: role check, self-deletion guard, then
filter the username out and persist. -/
def delete_user (req : Option DeleteUserReq) (users : List User)
    (saveOk : Bool) : Resp × List User :=
  match req with
  | none => (⟨"erro", "No data provided", 400⟩, users)
  | some r =>
    if !(can_modify r.tipo_usuario) then
      (⟨"erro", "Permissão negada", 403⟩, users)
    else if r.usuario = r.usuario_admin then
      (⟨"erro", "Não é possível excluir seu próprio usuário", 400⟩, users)
    else
      let newUsers := users.filter (fun u => u.usuario ≠ r.usuario)
      if saveOk then (⟨"ok", "Usuário excluído com sucesso", 200⟩, newUsers)
      else (⟨"erro", "Erro ao excluir usuário", 500⟩, users)

/-- `validate_request_data(data, required_fields)`: `if not data` is true
for both `None` and an empty dict; otherwise every required key must be
present. -/
def validate_request_data (data : Option Rec) (required : List String) :
    Bool × String :=
  match data with
  | none => (false, "No data provided")
  | some d =>
    if d = [] then (false, "No data provided")
    else
      let missing := required.filter (fun f => !(d.hasKey f))
      if missing.isEmpty then (true, "")
      else (false, "Missing required fields: " ++ ", ".intercalate missing)

/-- `save_document` from `app.py`: `if not data` rejects `None` and `{}`
with 400; an `id` is generated from the clock if absent, `arquivo_nome`
defaults to `""`, `created_at` is stamped, the record is appended and the
collection persisted (`saveOk` is the outcome of `save_documents`).  Note
the route performs no `can_modify` role check. -/
def save_document (now : DateTime) (data : Option Rec) (docs : List Rec)
    (saveOk : Bool) : Resp × List Rec :=
  match data with
  | none => (⟨"erro", "Dados não fornecidos", 400⟩, docs)
  | some d =>
    if d = [] then (⟨"erro", "Dados não fornecidos", 400⟩, docs)
    else
      let d := if d.hasKey "id" then d else d.insert "id" (fmtId now)
      let d := if d.hasKey "arquivo_nome" then d else d.insert "arquivo_nome" ""
      let d := d.insert "created_at" (isoFmt now)
      if saveOk then (⟨"ok", "Documento salvo com sucesso", 200⟩, docs ++ [d])
      else (⟨"erro", "Erro ao salvar documento", 500⟩, docs)

/-- `delete_document` from `app.py`: validation, role check, then the
collection is filtered by id and persisted; the response is 200 whether or
not a record matched (only the log line is conditional on a match). -/
def delete_document (data : Option Rec) (docs : List Rec) (saveOk : Bool) :
    Resp × List Rec :=
  let v := validate_request_data data ["id", "tipo_usuario", "usuario"]
  if !v.1 then (⟨"erro", v.2, 400⟩, docs)
  else
    let d := data.getD []
    if !(can_modify (d.getD "tipo_usuario" "")) then
      (⟨"erro", "Permissão negada", 403⟩, docs)
    else
      let newDocs := docs.filter (fun doc => doc.get? "id" ≠ d.get? "id")
      if saveOk then (⟨"ok", "Documento excluído com sucesso", 200⟩, newDocs)
      else (⟨"erro", "Erro ao excluir documento", 500⟩, docs)

/-- An edit request body that passed `validate_request_data(data,
["original", "atualizado", "tipo_usuario", "usuario"])`; `original` and
`atualizado` are the nested record payloads. -/
structure EditReq where
  original : Rec
  atualizado : Rec
  tipo_usuario : String
  usuario : String
deriving Repr

/-- `edit_document` from `app.py`: role check, stamp `updated_at` on the
caller-supplied replacement, then replace the first record whose `id`
matches `original`'s `id` wholesale (`documents[i] = updated` — the
replacement's own `id` is stored, nothing forces it to equal the
original's). -/
def edit_document (now : DateTime) (req : Option EditReq) (docs : List Rec)
    (saveOk : Bool) : Resp × List Rec :=
  match req with
  | none => (⟨"erro", "No data provided", 400⟩, docs)
  | some r =>
    if !(can_modify r.tipo_usuario) then
      (⟨"erro", "Permissão negada", 403⟩, docs)
    else
      let updated := r.atualizado.insert "updated_at" (isoFmt now)
      match docs.findIdx? (fun doc => doc.get? "id" == r.original.get? "id") with
      | none => (⟨"erro", "Documento não encontrado", 404⟩, docs)
      | some i =>
        if saveOk then
          (⟨"ok", "Documento atualizado com sucesso", 200⟩, docs.set i updated)
        else (⟨"erro", "Erro ao salvar documento", 500⟩, docs)

/-- `ALLOWED_EXTENSIONS` from `app.py`. -/
def ALLOWED_EXTENSIONS : List String :=
  ["png", "jpg", "jpeg", "gif", "bmp",
   "mp4", "avi", "mov", "wmv",
   "mp3", "wav", "ogg", "m4a",
   "pdf", "doc", "docx", "txt"]

/-- The text after the last dot: `filename.rsplit(".", 1)[1]` (callers
guard on `"." in filename`). -/
def afterLastDot (s : String) : String :=
  String.mk ((s.toList.reverse.takeWhile (fun c => c ≠ '.')).reverse)

/-- Python `str.lower()`, character-wise (the extensions involved are
ASCII). -/
def toLowerAscii (s : String) : String :=
  String.mk (s.toList.map Char.toLower)

/-- `is_valid_file(filename)` from `app.py`:
`"." in filename and filename.rsplit(".", 1)[1].lower() in
ALLOWED_EXTENSIONS`. -/
def is_valid_file (filename : String) : Bool :=
  filename.toList.contains '.' &&
    ALLOWED_EXTENSIONS.contains (toLowerAscii (afterLastDot filename))

/-- The characters werkzeug's `secure_filename` keeps
(`[A-Za-z0-9_.-]`). -/
def allowedFileChar (c : Char) : Bool :=
  c.isAlpha || c.isDigit || c = '_' || c = '.' || c = '-'

/-- The whitespace Python's `str.split()` splits on. -/
def isWsChar (c : Char) : Bool :=
  c = ' ' || c = '\t' || c = '\n' || c = '\r'

/-- Python `s.strip("._")`: drop dots and underscores from both ends. -/
def stripDotUnderscore (cs : List Char) : List Char :=
  ((cs.dropWhile (fun c => c = '.' || c = '_')).reverse.dropWhile
    (fun c => c = '.' || c = '_')).reverse

/-- Werkzeug's `secure_filename` (third-party), modelled for ASCII input:
path separators become spaces, whitespace-separated parts are joined with
`_`, characters outside `[A-Za-z0-9_.-]` are dropped (this also covers the
NFKD/ascii-ignore step, which removes non-ASCII characters), and leading
and trailing `.`/`_` are stripped. -/
def secure_filename (s : String) : String :=
  let cs := s.toList.map (fun c => if c = '/' then ' ' else c)
  let parts := (cs.splitOnP isWsChar).filter (fun t => t ≠ [])
  let joined := List.intercalate ['_'] parts
  let cleaned := joined.filter allowedFileChar
  String.mk (stripDotUnderscore cleaned)

/-- The index of the last `.` in the character list, if any. -/
def lastDotIdx (cs : List Char) : Option Nat :=
  match cs.reverse.findIdx? (fun c => c = '.') with
  | none => none
  | some j => some (cs.length - 1 - j)

/-- `os.path.splitext` (posix): split at the last dot, unless every
character before it is itself a dot (leading dots never start an
extension). -/
def splitext (p : String) : String × String :=
  let cs := p.toList
  match lastDotIdx cs with
  | none => (p, "")
  | some i =>
    if (cs.take i).any (fun c => c ≠ '.') then
      (String.mk (cs.take i), String.mk (cs.drop i))
    else (p, "")

/-- The uploads directory, as a name-to-content map (`Rec` reused as a
generic string map; `Rec.insert` is exactly a file write: overwrite an
existing name or create a fresh one). -/
abbrev UploadStore := Rec

/-- An upload request: `request.files["arquivo"]` together with
`request.form.get("usuario", "")`; `none` models a request with no
`arquivo` part. -/
structure UploadReq where
  filename : String
  content : String
  usuario : String
deriving DecidableEq, Repr

/-- `upload_file`'s response body: `nome_arquivo` is the final stored name
on success (empty on error, where the JSON omits the key). -/
structure UploadResp where
  status : String
  mensagem : String
  nome_arquivo : String
  code : Nat
deriving DecidableEq, Repr

/-- `upload_file` from `app.py`: empty filename and disallowed extension
are rejected before any write; the name is sanitized; if the sanitized
name already exists a `%Y%m%d%H%M%S` stamp is inserted before the
extension; the bytes are written (`writeOk` models `file.save` not
raising) and the final name is returned.  Note the route performs no
`can_modify` role check. -/
def upload_file (now : DateTime) (req : Option UploadReq)
    (store : UploadStore) (writeOk : Bool) : UploadResp × UploadStore :=
  match req with
  | none => (⟨"erro", "Nenhum arquivo enviado", "", 400⟩, store)
  | some r =>
    if r.filename = "" then (⟨"erro", "Nome do arquivo vazio", "", 400⟩, store)
    else if !(is_valid_file r.filename) then
      (⟨"erro", "Extensão de arquivo não permitida", "", 400⟩, store)
    else
      let fname := secure_filename r.filename
      let fname :=
        if (store.get? fname).isSome then
          (splitext fname).1 ++ "_" ++ fmtTs14 now ++ (splitext fname).2
        else fname
      if writeOk then
        (⟨"ok", "Arquivo salvo com sucesso", fname, 200⟩, store.insert fname r.content)
      else (⟨"erro", "Erro ao salvar arquivo", "", 500⟩, store)

/-- A delete-upload request body that passed `validate_request_data(data,
["filename", "tipo_usuario", "usuario"])`. -/
structure DeleteUploadReq where
  filename : String
  tipo_usuario : String
  usuario : String
deriving DecidableEq, Repr

/-- `delete_upload` from `app.py`: role check, then unlink the file if it
exists (404 otherwise; `unlinkOk` models `unlink` not raising). -/
def delete_upload (req : Option DeleteUploadReq) (store : UploadStore)
    (unlinkOk : Bool) : Resp × UploadStore :=
  match req with
  | none => (⟨"erro", "No data provided", 400⟩, store)
  | some r =>
    if !(can_modify r.tipo_usuario) then
      (⟨"erro", "Permissão negada", 403⟩, store)
    else if (store.get? r.filename).isSome then
      if unlinkOk then
        (⟨"ok", "Arquivo excluído com sucesso", 200⟩,
          store.filter (fun p => p.1 ≠ r.filename))
      else (⟨"erro", "Erro ao excluir arquivo", 500⟩, store)
    else (⟨"erro", "Arquivo não encontrado", 404⟩, store)

/-- `export_excel` from `app.py`, reduced to what reaches the spreadsheet:
`if not data` rejects both `None` and the empty list `[]` with 400
(`"Dados não fornecidos"`); otherwise the rows handed to
`pd.DataFrame(...).to_excel` are returned (the spreadsheet itself is
third-party output). -/
def export_excel (data : Option (List Rec)) : Resp × Option (List Rec) :=
  match data with
  | none => (⟨"erro", "Dados não fornecidos", 400⟩, none)
  | some rows =>
    if rows.isEmpty then (⟨"erro", "Dados não fornecidos", 400⟩, none)
    else (⟨"ok", "", 200⟩, some rows)

/-- The fields `export_word` drops from the table
(`f not in ["arquivo_nome", "id", "usuario"]`). -/
def excludedWordFields : List String := ["arquivo_nome", "id", "usuario"]

/-- The document `export_word` builds: a landscape section, the heading,
and for non-empty data one table whose columns are the first record's keys
minus the excluded fields, with a header row and one stringified row per
record.  The route builds no media section: after the table loop it goes
straight to `doc.save` (src/app.py lines 579-584), so `media` is always
empty. -/
structure WordDoc where
  orientation : String
  heading : String
  table : Option (List String × List (List String))
  media : List String
deriving DecidableEq, Repr

/-- The `docx.Document` construction inside `export_word` (lines
553-584). -/
def build_word_doc (data : List Rec) : WordDoc :=
  match data with
  | [] => ⟨"landscape", "Documentos Arquivísticos", none, []⟩
  | d0 :: rest =>
    let fields := (d0.map Prod.fst).filter (fun f => !(excludedWordFields.contains f))
    let rows := (d0 :: rest).map (fun item => fields.map (fun f => item.getD f ""))
    ⟨"landscape", "Documentos Arquivísticos", some (fields, rows), []⟩

/-- `export_word` from `app.py`: the same `if not data` rejection as
`export_excel`, then the document build. -/
def export_word (data : Option (List Rec)) : Resp × Option WordDoc :=
  match data with
  | none => (⟨"erro", "Dados não fornecidos", 400⟩, none)
  | some rows =>
    if rows.isEmpty then (⟨"erro", "Dados não fornecidos", 400⟩, none)
    else (⟨"ok", "", 200⟩, some (build_word_doc rows))

/-- The observable state of a collection's backing JSON file.  Corruption
comes in two species the source treats differently: text that decodes as
UTF-8 but does not parse as JSON (`corruptText` — `json.load` raises
`json.JSONDecodeError`, which the route's
`except (json.JSONDecodeError, IOError)` catches), and bytes that are not
valid UTF-8 (`corruptBytes` — `json.load` raises `UnicodeDecodeError`, a
`ValueError` that is neither a `json.JSONDecodeError` nor an `IOError`,
so the except clause does not catch it and it propagates).  A truncated
`save_json_file` write is a realistic source of the latter: it writes with
`ensure_ascii=False`, so the accented Portuguese text in the data is
stored as multibyte UTF-8 and a cut mid-character leaves invalid bytes.
`readError` is a read failing with `IOError`/`OSError` (caught). -/
inductive FileState where
  | missing
  | corruptText
  | corruptBytes
  | readError
  | good (recs : List Rec)
deriving Repr

/-- `load_json_file(filepath, default)` from `app.py`: `default=None`
becomes `[]`; a missing file falls through to the default; a
`json.JSONDecodeError` or `IOError` raised inside the `try` is caught,
logged, and the default returned; but a `UnicodeDecodeError` from
invalid-UTF-8 bytes is not in the except clause and propagates to the
caller, modelled as `Except.error`. -/
def load_json_file (fs : FileState) (dflt : Option (List Rec)) :
    Except String (List Rec) :=
  let d := dflt.getD []
  match fs with
  | .good recs => .ok recs
  | .missing => .ok d
  | .corruptText => .ok d
  | .readError => .ok d
  | .corruptBytes => .error "UnicodeDecodeError"

/-- `load_users()`. -/
def load_users (fs : FileState) : Except String (List Rec) :=
  load_json_file fs (some [])

/-- `load_documents()`. -/
def load_documents (fs : FileState) : Except String (List Rec) :=
  load_json_file fs (some [])

/-- `load_logs()`. -/
def load_logs (fs : FileState) : Except String (List Rec) :=
  load_json_file fs (some [])

/-- `load_exports()`. -/
def load_exports (fs : FileState) : Except String (List Rec) :=
  load_json_file fs (some [])

theorem Rec.get?_insert_self (r : Rec) (k v : String) :
    (r.insert k v).get? k = some v := by
  induction r with
  | nil => simp [Rec.insert, Rec.get?]
  | cons p rest ih =>
    by_cases hp : p.1 = k
    · simp [Rec.insert, Rec.get?, hp]
    · simp [Rec.insert, Rec.get?, hp, ih]

theorem Rec.get?_insert_ne (r : Rec) (k v k' : String) (h : k' ≠ k) :
    (r.insert k v).get? k' = r.get? k' := by
  have hkk : k ≠ k' := fun hk => h hk.symm
  induction r with
  | nil => simp [Rec.insert, Rec.get?, hkk]
  | cons p rest ih =>
    by_cases hp : p.1 = k
    · simp [Rec.insert, Rec.get?, hp, hkk]
    · simp only [Rec.insert, if_neg hp, Rec.get?]
      split
      · rfl
      · exact ih

theorem Rec.getD_insert_self (r : Rec) (k v dflt : String) :
    (r.insert k v).getD k dflt = v := by
  simp [Rec.getD, Rec.get?_insert_self]

theorem Rec.getD_insert_ne (r : Rec) (k v k' dflt : String) (h : k' ≠ k) :
    (r.insert k v).getD k' dflt = r.getD k' dflt := by
  simp [Rec.getD, Rec.get?_insert_ne r k v k' h]

theorem Rec.hasKey_insert_ne (r : Rec) (k v k' : String) (h : k' ≠ k) :
    (r.insert k v).hasKey k' = r.hasKey k' := by
  simp [Rec.hasKey, Rec.get?_insert_ne r k v k' h]

/-! Claim theorems. -/

/-- C8: the claim is right about the intent but the code misses one
corruption species.  A missing file, unparseable UTF-8 text
(`json.JSONDecodeError`) and a failing read (`IOError`) all yield the
provided default (the empty sequence for every collection loader) with the
error only logged; but a corrupt file whose bytes are not valid UTF-8
makes `json.load` raise `UnicodeDecodeError`, which
`except (json.JSONDecodeError, IOError)` does not catch, so the exception
propagates to the caller — contradicting the claim and the function's own
docstring (`Safely load JSON file with error handling`). -/
theorem C8_load_unicode_decode_error :
    ∀ dflt : Option (List Rec),
      load_json_file .corruptBytes dflt = .error "UnicodeDecodeError" ∧
      load_json_file .missing dflt = .ok (dflt.getD []) ∧
      load_json_file .corruptText dflt = .ok (dflt.getD []) ∧
      load_json_file .readError dflt = .ok (dflt.getD []) ∧
      load_users .corruptBytes = .error "UnicodeDecodeError" ∧
      load_documents .corruptBytes = .error "UnicodeDecodeError" ∧
      load_logs .corruptBytes = .error "UnicodeDecodeError" ∧
      load_exports .corruptBytes = .error "UnicodeDecodeError" ∧
      load_users .missing = .ok [] ∧ load_users .corruptText = .ok [] ∧
      load_documents .missing = .ok [] ∧
      load_documents .corruptText = .ok [] ∧
      load_logs .missing = .ok [] ∧ load_logs .corruptText = .ok [] ∧
      load_exports .missing = .ok [] ∧ load_exports .corruptText = .ok [] := by
  intro dflt
  exact ⟨rfl, rfl, rfl, rfl, rfl, rfl, rfl, rfl, rfl, rfl, rfl, rfl, rfl,
    rfl, rfl, rfl⟩

/-- C3 fails on the code: `export_excel` and `export_word` guard with
`if not data`, and in Python an empty list is falsy, so exporting the
empty document list is rejected with 400 `"Dados não fornecidos"` and no
file is produced. -/
theorem C3_counterexample :
    (export_excel (some [])).1 = ⟨"erro", "Dados não fornecidos", 400⟩ ∧
    (export_excel (some [])).2 = none ∧
    (export_word (some [])).1 = ⟨"erro", "Dados não fornecidos", 400⟩ ∧
    (export_word (some [])).2 = none :=
  ⟨rfl, rfl, rfl, rfl⟩

/-- C3 amended: exporting an empty document list does not raise, but it
does not produce a file either — both export endpoints reject the empty
list (like a missing body) with 400 `"Dados não fornecidos"`. -/
theorem C3_amended_empty_export_rejected :
    ∀ data : Option (List Rec), (data = none ∨ data = some []) →
      export_excel data = (⟨"erro", "Dados não fornecidos", 400⟩, none) ∧
      export_word data = (⟨"erro", "Dados não fornecidos", 400⟩, none) := by
  rintro _ (rfl | rfl) <;> exact ⟨rfl, rfl⟩

/-- Witness for the amended C3 at the concrete empty list. -/
theorem C3_amended_witness :
    export_excel (some []) = (⟨"erro", "Dados não fornecidos", 400⟩, none) ∧
    export_word (some []) = (⟨"erro", "Dados não fornecidos", 400⟩, none) :=
  C3_amended_empty_export_rejected (some []) (Or.inr rfl)

/-- C2 fails on the code: deleting an id that matches no record still
answers 200 `"ok"` (`save_documents` is called on the unchanged filtered
list and the route returns the success body), not NotFound — here the
collection holds only id 1 and the request deletes id 2. -/
theorem C2_counterexample :
    (delete_document
        (some [("id", "2"), ("tipo_usuario", "editor"), ("usuario", "u")])
        [[("id", "1"), ("Arquivo", "a")]] true).1 =
      ⟨"ok", "Documento excluído com sucesso", 200⟩ ∧
    (delete_document
        (some [("id", "2"), ("tipo_usuario", "editor"), ("usuario", "u")])
        [[("id", "1"), ("Arquivo", "a")]] true).1.code ≠ 404 ∧
    (delete_document
        (some [("id", "2"), ("tipo_usuario", "editor"), ("usuario", "u")])
        [[("id", "1"), ("Arquivo", "a")]] true).2 =
      [[("id", "1"), ("Arquivo", "a")]] := by
  refine ⟨rfl, by decide, rfl⟩

/-- C2 amended: with an authorized role, all required fields present and a
successful save, deleting an id that matches no record leaves the
collection unchanged but reports success (200 `"ok"`), not NotFound. -/
theorem C2_amended_delete_missing_id (d : Rec) (docs : List Rec)
    (hne : d ≠ []) (hid : d.hasKey "id" = true)
    (htu : d.hasKey "tipo_usuario" = true) (hu : d.hasKey "usuario" = true)
    (hrole : can_modify (d.getD "tipo_usuario" "") = true)
    (habs : ∀ doc ∈ docs, doc.get? "id" ≠ d.get? "id") :
    delete_document (some d) docs true =
      (⟨"ok", "Documento excluído com sucesso", 200⟩, docs) := by
  have hfilter : docs.filter (fun doc => doc.get? "id" ≠ d.get? "id") = docs :=
    List.filter_eq_self.mpr (fun doc hdoc => decide_eq_true (habs doc hdoc))
  simp [delete_document, validate_request_data, hne, hid, htu, hu, hrole, hfilter]
  exact fun doc hdoc => habs doc hdoc

/-- Witness for the amended C2: a one-record collection and a request for
an id that is not there. -/
theorem C2_amended_witness :
    delete_document
        (some [("id", "2"), ("tipo_usuario", "editor"), ("usuario", "u")])
        [[("id", "1"), ("Arquivo", "a")]] true =
      (⟨"ok", "Documento excluído com sucesso", 200⟩,
        [[("id", "1"), ("Arquivo", "a")]]) :=
  C2_amended_delete_missing_id _ _ (by decide) (by decide) (by decide)
    (by decide) (by decide) (by decide)

/-- C10: failed logins are indistinguishable by cause — an unknown
username and a known username with a wrong password produce the same
response body and status (`"erro"`, `"Credenciais inválidas"`, 401), for
any password checker and any pair of user collections. -/
theorem C10_login_indistinguishable (checkpw : String → String → Bool)
    (users₁ users₂ : List User) (r₁ r₂ : LoginReq) (u : User)
    (h₁ : ∀ v ∈ users₁, v.usuario ≠ r₁.usuario)
    (h₂ : users₂.find? (fun v => v.usuario = r₂.usuario) = some u)
    (h₃ : checkpw r₂.senha u.senha = false) :
    login checkpw (some r₁) users₁ = login checkpw (some r₂) users₂ ∧
    login checkpw (some r₁) users₁ =
      ⟨"erro", "Credenciais inválidas", "", 401⟩ := by
  have hfind : users₁.find? (fun v => v.usuario = r₁.usuario) = none := by
    rw [List.find?_eq_none]
    intro v hv
    simpa using h₁ v hv
  constructor <;> simp [login, hfind, h₂, h₃]

/-- Witness for C10: an empty collection versus a one-user collection with
a rejecting password check. -/
theorem C10_witness :
    login (fun _ _ => false) (some ⟨"ghost", "pw"⟩) [] =
      login (fun _ _ => false) (some ⟨"admin", "pw"⟩)
        [⟨"admin", "H", "administrador", "t"⟩] ∧
    login (fun _ _ => false) (some ⟨"ghost", "pw"⟩) [] =
      ⟨"erro", "Credenciais inválidas", "", 401⟩ :=
  C10_login_indistinguishable (fun _ _ => false) []
    [⟨"admin", "H", "administrador", "t"⟩] ⟨"ghost", "pw"⟩ ⟨"admin", "pw"⟩
    ⟨"admin", "H", "administrador", "t"⟩ (by simp) (by simp) rfl

theorem log_action_length_le (now : DateTime) (logs : List LogEntry)
    (u a det : String) (h : logs.length ≤ 1000) :
    (log_action now logs u a det).length ≤ 1000 := by
  simp only [log_action]
  split
  · rw [List.length_drop]
    omega
  · simp only [List.length_append, List.length_cons, List.length_nil] at *
    omega

theorem log_action_suffix (now : DateTime) (logs : List LogEntry)
    (u a det : String) :
    log_action now logs u a det <:+
      logs ++ [⟨fmtId now, u, a, det, fmtTs now⟩] := by
  simp only [log_action]
  split
  · exact List.drop_suffix _ _
  · exact List.suffix_refl _

theorem suffix_append_right {α : Type} {l m : List α} (t : List α)
    (h : l <:+ m) : l ++ t <:+ m ++ t := by
  obtain ⟨w, rfl⟩ := h
  exact ⟨w, by simp⟩

/-- C5: starting from an audit log of at most 1000 entries, any finite
sequence of `log_action` calls leaves at most 1000 entries, and the
resulting log is a suffix of the initial log followed by all appended
entries in order — so only the oldest entries are dropped, and the newest
are retained in order. -/
theorem C5_log_cap (init : List LogEntry) (ops : List LogOp)
    (h : init.length ≤ 1000) :
    (run_log_actions init ops).length ≤ 1000 ∧
    run_log_actions init ops <:+ init ++ ops.map LogOp.entry := by
  induction ops generalizing init with
  | nil =>
    exact ⟨by simpa [run_log_actions] using h,
      by simp [run_log_actions]⟩
  | cons op rest ih =>
    have hstep : run_log_actions init (op :: rest) =
        run_log_actions (log_action op.now init op.user op.action op.details)
          rest := rfl
    have hlen := log_action_length_le op.now init op.user op.action op.details h
    obtain ⟨ih₁, ih₂⟩ := ih _ hlen
    refine ⟨by rw [hstep]; exact ih₁, ?_⟩
    rw [hstep]
    have h₁ : log_action op.now init op.user op.action op.details ++
        rest.map LogOp.entry <:+ (init ++ [op.entry]) ++ rest.map LogOp.entry :=
      suffix_append_right _ (log_action_suffix op.now init op.user op.action
        op.details)
    have h₂ : (init ++ [op.entry]) ++ rest.map LogOp.entry =
        init ++ (op :: rest).map LogOp.entry := by
      simp
    exact (ih₂.trans h₁).trans (h₂ ▸ List.suffix_refl _)

/-- Witness for C5: one `log_action` call on the empty log. -/
theorem C5_witness :
    (run_log_actions [] [⟨⟨2024, 1, 2, 3, 4, 5, 6⟩, "u", "LOGIN", "d"⟩]).length
        ≤ 1000 ∧
    run_log_actions [] [⟨⟨2024, 1, 2, 3, 4, 5, 6⟩, "u", "LOGIN", "d"⟩] <:+
      [] ++ [⟨⟨2024, 1, 2, 3, 4, 5, 6⟩, "u", "LOGIN", "d"⟩].map LogOp.entry :=
  C5_log_cap [] [⟨⟨2024, 1, 2, 3, 4, 5, 6⟩, "u", "LOGIN", "d"⟩] (by decide)

/-- C4 fails on the code: `edit_document` stores the caller-supplied
replacement wholesale (`documents[i] = updated`), so replacing the record
of id 1 with a payload carrying id 2 stores id 2 — the id is not
immutable. -/
theorem C4_counterexample :
    (edit_document ⟨2024, 1, 2, 3, 4, 5, 6⟩
        (some ⟨[("id", "1")], [("id", "2"), ("Arquivo", "b")], "editor", "u"⟩)
        [[("id", "1"), ("Arquivo", "a")]] true).1.status = "ok" ∧
    Rec.get? ((edit_document ⟨2024, 1, 2, 3, 4, 5, 6⟩
        (some ⟨[("id", "1")], [("id", "2"), ("Arquivo", "b")], "editor", "u"⟩)
        [[("id", "1"), ("Arquivo", "a")]] true).2.headD []) "id" =
      some "2" ∧
    Rec.get? ([[("id", "1"), ("Arquivo", "a")]].headD []) "id" =
      some "1" := by
  refine ⟨rfl, by decide, by decide⟩

/-- C4 amended: the update replaces the matched record wholesale with the
caller-supplied replacement (with `updated_at` stamped); the stored
record's id is the replacement's id, so the id of the replaced record is
preserved exactly when the caller sends the same id back. -/
theorem C4_amended_edit_stores_replacement (now : DateTime) (r : EditReq)
    (docs : List Rec) (i : Nat)
    (hrole : can_modify r.tipo_usuario = true)
    (hfind : docs.findIdx?
        (fun doc => doc.get? "id" == r.original.get? "id") = some i) :
    (edit_document now (some r) docs true).2 =
      docs.set i (r.atualizado.insert "updated_at" (isoFmt now)) ∧
    ((edit_document now (some r) docs true).2.getD i []).get? "id" =
      r.atualizado.get? "id" := by
  have hi : i < docs.length := (List.findIdx?_eq_some_iff_findIdx_eq.mp hfind).1
  have hres : (edit_document now (some r) docs true).2 =
      docs.set i (r.atualizado.insert "updated_at" (isoFmt now)) := by
    simp [edit_document, hrole, hfind]
  refine ⟨hres, ?_⟩
  rw [hres]
  have hget : (docs.set i (r.atualizado.insert "updated_at" (isoFmt now))).getD
      i [] = r.atualizado.insert "updated_at" (isoFmt now) := by
    simp [List.getD, List.getElem?_set_self, hi]
  rw [hget]
  exact Rec.get?_insert_ne _ _ _ _ (by decide)

/-- Witness for the amended C4 at the counterexample's input. -/
theorem C4_amended_witness :
    (edit_document ⟨2024, 1, 2, 3, 4, 5, 6⟩
        (some ⟨[("id", "1")], [("id", "2"), ("Arquivo", "b")], "editor", "u"⟩)
        [[("id", "1"), ("Arquivo", "a")]] true).2 =
      [[("id", "1"), ("Arquivo", "a")]].set 0
        (Rec.insert [("id", "2"), ("Arquivo", "b")] "updated_at"
          (isoFmt ⟨2024, 1, 2, 3, 4, 5, 6⟩)) ∧
    Rec.get? ((edit_document ⟨2024, 1, 2, 3, 4, 5, 6⟩
        (some ⟨[("id", "1")], [("id", "2"), ("Arquivo", "b")], "editor", "u"⟩)
        [[("id", "1"), ("Arquivo", "a")]] true).2.getD 0 []) "id" =
      Rec.get? [("id", "2"), ("Arquivo", "b")] "id" :=
  C4_amended_edit_stores_replacement ⟨2024, 1, 2, 3, 4, 5, 6⟩
    ⟨[("id", "1")], [("id", "2"), ("Arquivo", "b")], "editor", "u"⟩
    [[("id", "1"), ("Arquivo", "a")]] 0 (by decide) (by decide)

/-- C6 fails on the code: this version of `export_word` builds no media
section at all — after the table loop it saves the document directly — so
a record with a non-empty `arquivo_nome` contributes nothing beyond its
table row. -/
theorem C6_counterexample :
    Rec.getD [("id", "1"), ("Arquivo", "doc"), ("arquivo_nome", "report.pdf")]
        "arquivo_nome" "" ≠ "" ∧
    (build_word_doc
        [[("id", "1"), ("Arquivo", "doc"), ("arquivo_nome", "report.pdf")]]).media
      = [] := by
  refine ⟨by decide, rfl⟩

/-- C6 amended: for every non-empty record list the Word export produces a
landscape document titled `Documentos Arquivísticos` with one table whose
columns are exactly the first record's keys minus `id`, `arquivo_nome` and
`usuario` (every non-excluded key of the first record is a column and
every column is such a key), whose rows are exactly one row per record
holding the stringified value of each column key
(`str(item.get(field, ""))`) — and no media section: associated files are
neither embedded nor listed. -/
theorem C6_amended_word_table_no_media (d0 : Rec) (rest : List Rec) :
    ∃ fields rows,
      (build_word_doc (d0 :: rest)).table = some (fields, rows) ∧
      (build_word_doc (d0 :: rest)).heading = "Documentos Arquivísticos" ∧
      (build_word_doc (d0 :: rest)).orientation = "landscape" ∧
      "id" ∉ fields ∧ "arquivo_nome" ∉ fields ∧ "usuario" ∉ fields ∧
      (∀ f ∈ d0.map Prod.fst, f ∉ excludedWordFields → f ∈ fields) ∧
      (∀ f ∈ fields, f ∈ d0.map Prod.fst) ∧
      rows = (d0 :: rest).map (fun item => fields.map (fun f => item.getD f "")) ∧
      rows.length = (d0 :: rest).length ∧
      (∀ row ∈ rows, row.length = fields.length) ∧
      (build_word_doc (d0 :: rest)).media = [] := by
  refine ⟨_, _, rfl, rfl, rfl, ?_, ?_, ?_, ?_, ?_, rfl, ?_, ?_, rfl⟩
  · simp [build_word_doc, excludedWordFields]
  · simp [build_word_doc, excludedWordFields]
  · simp [build_word_doc, excludedWordFields]
  · intro f hf hnot
    exact List.mem_filter.mpr ⟨hf, by simpa using hnot⟩
  · intro f hf
    simp only [build_word_doc, List.mem_filter] at hf
    exact hf.1
  · simp [build_word_doc]
  · intro row hrow
    simp only [build_word_doc, List.mem_map] at hrow
    obtain ⟨item, _, rfl⟩ := hrow
    simp

/-- C1 fails on the code: `save_document` (the add-document mutation
endpoint) never consults `can_modify` — a request carrying the
non-authorized role `viewer` is not rejected: the document is appended and
the route answers `"ok"`. -/
theorem C1_counterexample :
    can_modify "viewer" = false ∧
    (save_document ⟨2024, 1, 2, 3, 4, 5, 6⟩
        (some [("tipo_usuario", "viewer"), ("usuario", "v"), ("Arquivo", "x")])
        [] true).1.status = "ok" ∧
    (save_document ⟨2024, 1, 2, 3, 4, 5, 6⟩
        (some [("tipo_usuario", "viewer"), ("usuario", "v"), ("Arquivo", "x")])
        [] true).2 ≠ [] := by
  refine ⟨rfl, rfl, by decide⟩

/-- C1 amended: only the edit/delete mutation endpoints (edit document,
delete document, delete user, delete upload) check `can_modify` and reject
a role that is neither administrador nor editor with 403
`"Permissão negada"`; the add-document, register-user and upload-file
endpoints perform no role check and proceed regardless of the supplied
role. -/
theorem C1_amended_authorization_coverage :
    (∀ (d : Rec) (docs : List Rec) (saveOk : Bool),
      d ≠ [] → d.hasKey "id" = true → d.hasKey "tipo_usuario" = true →
      d.hasKey "usuario" = true →
      can_modify (d.getD "tipo_usuario" "") = false →
      delete_document (some d) docs saveOk =
        (⟨"erro", "Permissão negada", 403⟩, docs)) ∧
    (∀ (now : DateTime) (r : EditReq) (docs : List Rec) (saveOk : Bool),
      can_modify r.tipo_usuario = false →
      edit_document now (some r) docs saveOk =
        (⟨"erro", "Permissão negada", 403⟩, docs)) ∧
    (∀ (r : DeleteUserReq) (users : List User) (saveOk : Bool),
      can_modify r.tipo_usuario = false →
      delete_user (some r) users saveOk =
        (⟨"erro", "Permissão negada", 403⟩, users)) ∧
    (∀ (r : DeleteUploadReq) (store : UploadStore) (unlinkOk : Bool),
      can_modify r.tipo_usuario = false →
      delete_upload (some r) store unlinkOk =
        (⟨"erro", "Permissão negada", 403⟩, store)) ∧
    (∀ (now : DateTime) (d : Rec) (docs : List Rec),
      d ≠ [] →
      (save_document now (some d) docs true).1 =
        ⟨"ok", "Documento salvo com sucesso", 200⟩) ∧
    (∀ (hashpw : String → String) (now : DateTime) (r : RegisterReq)
        (users : List User),
      users.any (fun u => u.usuario = r.usuario) = false →
      (register_user hashpw now (some r) users true).1 =
        ⟨"ok", "Usuário cadastrado com sucesso", 200⟩) ∧
    (∀ (now : DateTime) (r : UploadReq) (store : UploadStore),
      r.filename ≠ "" → is_valid_file r.filename = true →
      (upload_file now (some r) store true).1.status = "ok") := by
  refine ⟨?_, ?_, ?_, ?_, ?_, ?_, ?_⟩
  · intro d docs saveOk hne hid htu hu hrole
    simp [delete_document, validate_request_data, hne, hid, htu, hu, hrole]
  · intro now r docs saveOk hrole
    simp [edit_document, hrole]
  · intro r users saveOk hrole
    simp [delete_user, hrole]
  · intro r store unlinkOk hrole
    simp [delete_upload, hrole]
  · intro now d docs hne
    simp [save_document, hne]
  · intro hashpw now r users hfresh
    simp [register_user, hfresh]
  · intro now r store hfn hvalid
    simp [upload_file, hfn, hvalid]

/-- Witness for the amended C1: each endpoint at a concrete input with the
role `viewer`. -/
theorem C1_amended_witness :
    delete_document
        (some [("id", "1"), ("tipo_usuario", "viewer"), ("usuario", "v")])
        [] true = (⟨"erro", "Permissão negada", 403⟩, []) ∧
    edit_document ⟨2024, 1, 2, 3, 4, 5, 6⟩ (some ⟨[], [], "viewer", "v"⟩) []
        true = (⟨"erro", "Permissão negada", 403⟩, []) ∧
    delete_user (some ⟨"a", "viewer", "b"⟩) [] true =
      (⟨"erro", "Permissão negada", 403⟩, []) ∧
    delete_upload (some ⟨"f.pdf", "viewer", "v"⟩) [] true =
      (⟨"erro", "Permissão negada", 403⟩, []) ∧
    (save_document ⟨2024, 1, 2, 3, 4, 5, 6⟩ (some [("Arquivo", "x")]) []
        true).1 = ⟨"ok", "Documento salvo com sucesso", 200⟩ ∧
    (register_user (fun s => s) ⟨2024, 1, 2, 3, 4, 5, 6⟩
        (some ⟨"new", "pw", "viewer", ""⟩) [] true).1 =
      ⟨"ok", "Usuário cadastrado com sucesso", 200⟩ ∧
    (upload_file ⟨2024, 1, 2, 3, 4, 5, 6⟩ (some ⟨"report.pdf", "B", "v"⟩) []
        true).1.status = "ok" :=
  ⟨C1_amended_authorization_coverage.1 _ _ _ (by decide) (by decide)
      (by decide) (by decide) (by decide),
   C1_amended_authorization_coverage.2.1 _ _ _ _ (by decide),
   C1_amended_authorization_coverage.2.2.1 _ _ _ (by decide),
   C1_amended_authorization_coverage.2.2.2.1 _ _ _ (by decide),
   C1_amended_authorization_coverage.2.2.2.2.1 _ _ _ (by decide),
   C1_amended_authorization_coverage.2.2.2.2.2.1 _ _ _ _ (by decide),
   C1_amended_authorization_coverage.2.2.2.2.2.2 _ _ _ (by decide)
     (by decide)⟩

/-- C7: `save_document` on a record lacking `id` and `arquivo_nome`
assigns the clock-derived id (`%Y%m%d%H%M%S%f`, whose format is sensitive
below one second, as the last conjunct shows at one second boundary),
defaults `arquivo_nome` to `""`, stamps `created_at`, appends the record
at the end of the collection when the save succeeds, and answers the
500 storage error exactly when the save fails. -/
theorem C7_save_document_contract (now : DateTime) (d : Rec)
    (docs : List Rec) (saveOk : Bool) (hne : d ≠ [])
    (hid : d.hasKey "id" = false) (harq : d.hasKey "arquivo_nome" = false) :
    (∃ newRec : Rec,
      (save_document now (some d) docs saveOk).2 =
        (if saveOk then docs ++ [newRec] else docs) ∧
      Rec.get? newRec "id" = some (fmtId now) ∧
      Rec.get? newRec "arquivo_nome" = some "" ∧
      Rec.get? newRec "created_at" = some (isoFmt now)) ∧
    ((save_document now (some d) docs saveOk).1 =
        ⟨"erro", "Erro ao salvar documento", 500⟩ ↔ saveOk = false) ∧
    (saveOk = true →
      (save_document now (some d) docs saveOk).1 =
        ⟨"ok", "Documento salvo com sucesso", 200⟩) ∧
    fmtId ⟨2024, 1, 2, 3, 4, 5, 0⟩ ≠ fmtId ⟨2024, 1, 2, 3, 4, 5, 1⟩ := by
  have harq2 : (d.insert "id" (fmtId now)).hasKey "arquivo_nome" = false := by
    rw [Rec.hasKey_insert_ne _ _ _ _ (by decide)]
    exact harq
  refine ⟨⟨((d.insert "id" (fmtId now)).insert "arquivo_nome" "").insert
      "created_at" (isoFmt now), ?_, ?_, ?_, ?_⟩, ?_, ?_, by decide⟩
  · cases saveOk <;> simp [save_document, hne, hid, harq2]
  · rw [Rec.get?_insert_ne _ _ _ _ (by decide),
      Rec.get?_insert_ne _ _ _ _ (by decide)]
    exact Rec.get?_insert_self _ _ _
  · rw [Rec.get?_insert_ne _ _ _ _ (by decide)]
    exact Rec.get?_insert_self _ _ _
  · exact Rec.get?_insert_self _ _ _
  · cases saveOk <;> simp [save_document, hne, hid, harq2]
  · intro hs
    subst hs
    simp [save_document, hne, hid, harq2]

/-- Witness for C7: a record with neither `id` nor `arquivo_nome`, on the
empty collection, with the save succeeding. -/
theorem C7_witness :
    (∃ newRec : Rec,
      (save_document ⟨2024, 1, 2, 3, 4, 5, 6⟩ (some [("Arquivo", "x")]) []
          true).2 = (if true then [] ++ [newRec] else []) ∧
      Rec.get? newRec "id" = some (fmtId ⟨2024, 1, 2, 3, 4, 5, 6⟩) ∧
      Rec.get? newRec "arquivo_nome" = some "" ∧
      Rec.get? newRec "created_at" = some (isoFmt ⟨2024, 1, 2, 3, 4, 5, 6⟩)) ∧
    ((save_document ⟨2024, 1, 2, 3, 4, 5, 6⟩ (some [("Arquivo", "x")]) []
        true).1 = ⟨"erro", "Erro ao salvar documento", 500⟩ ↔ true = false) ∧
    (true = true →
      (save_document ⟨2024, 1, 2, 3, 4, 5, 6⟩ (some [("Arquivo", "x")]) []
          true).1 = ⟨"ok", "Documento salvo com sucesso", 200⟩) ∧
    fmtId ⟨2024, 1, 2, 3, 4, 5, 0⟩ ≠ fmtId ⟨2024, 1, 2, 3, 4, 5, 1⟩ :=
  C7_save_document_contract ⟨2024, 1, 2, 3, 4, 5, 6⟩ [("Arquivo", "x")] []
    true (by decide) (by decide) (by decide)

theorem strMk_append (l m : List Char) :
    String.mk l ++ String.mk m = String.mk (l ++ m) := rfl

theorem strMk_toList (p : String) : String.mk p.toList = p := rfl

theorem strAppend_empty (q : String) : q ++ "" = q := by
  cases q with
  | mk l =>
    show String.mk (l ++ []) = String.mk l
    rw [List.append_nil]

theorem splitext_append (p : String) :
    (splitext p).1 ++ (splitext p).2 = p := by
  simp only [splitext]
  cases h : lastDotIdx p.toList with
  | none => exact strAppend_empty p
  | some i =>
    by_cases hany : ((p.toList.take i).any fun c => c ≠ '.') = true
    · simp only [hany, if_true]
      rw [strMk_append, List.take_append_drop, strMk_toList]
    · simp only [hany, if_false]
      exact strAppend_empty p

/-- The disambiguated upload name differs from the colliding sanitized
name: it is strictly longer (by the `"_"` and the timestamp). -/
theorem collision_name_ne (s ts : String) :
    (splitext s).1 ++ "_" ++ ts ++ (splitext s).2 ≠ s := by
  intro h
  have hs : (splitext s).1.length + (splitext s).2.length = s.length := by
    conv_rhs => rw [← splitext_append s]
    simp [String.length_append]
  have hlen := congrArg String.length h
  simp only [String.length_append] at hlen
  have h1 : ("_" : String).length = 1 := rfl
  omega

/-- C9: storing an upload whose sanitized filename already exists does not
overwrite the existing file — the new content is stored under the name
made by inserting a `%Y%m%d%H%M%S` stamp before the extension, the
response carries that final name, the new name is fetchable with the new
content, and the previously stored name still resolves exactly as
before. -/
theorem C9_upload_collision_keeps_both (now : DateTime) (r : UploadReq)
    (store : UploadStore)
    (hfn : r.filename ≠ "") (hvalid : is_valid_file r.filename = true)
    (hdup : (Rec.get? store (secure_filename r.filename)).isSome = true) :
    (upload_file now (some r) store true).1 =
      ⟨"ok", "Arquivo salvo com sucesso",
        (splitext (secure_filename r.filename)).1 ++ "_" ++ fmtTs14 now ++
          (splitext (secure_filename r.filename)).2, 200⟩ ∧
    Rec.get? (upload_file now (some r) store true).2
        ((splitext (secure_filename r.filename)).1 ++ "_" ++ fmtTs14 now ++
          (splitext (secure_filename r.filename)).2) = some r.content ∧
    Rec.get? (upload_file now (some r) store true).2
        (secure_filename r.filename) =
      Rec.get? store (secure_filename r.filename) ∧
    (Rec.get? (upload_file now (some r) store true).2
        (secure_filename r.filename)).isSome = true := by
  have hne : secure_filename r.filename ≠
      (splitext (secure_filename r.filename)).1 ++ "_" ++ fmtTs14 now ++
        (splitext (secure_filename r.filename)).2 :=
    fun hx => collision_name_ne _ _ hx.symm
  have hup : upload_file now (some r) store true =
      (⟨"ok", "Arquivo salvo com sucesso",
          (splitext (secure_filename r.filename)).1 ++ "_" ++ fmtTs14 now ++
            (splitext (secure_filename r.filename)).2, 200⟩,
        store.insert
          ((splitext (secure_filename r.filename)).1 ++ "_" ++ fmtTs14 now ++
            (splitext (secure_filename r.filename)).2) r.content) := by
    simp [upload_file, hfn, hvalid, hdup]
  rw [hup]
  refine ⟨rfl, Rec.get?_insert_self _ _ _, ?_, ?_⟩
  · exact Rec.get?_insert_ne _ _ _ _ hne
  · rw [Rec.get?_insert_ne _ _ _ _ hne]
    exact hdup

/-- Witness for C9: uploading `report.pdf` when a file of that name is
already stored. -/
theorem C9_witness :
    (upload_file ⟨2024, 1, 2, 3, 4, 5, 6⟩ (some ⟨"report.pdf", "NEW", "u"⟩)
        [("report.pdf", "OLD")] true).1 =
      ⟨"ok", "Arquivo salvo com sucesso",
        (splitext (secure_filename "report.pdf")).1 ++ "_" ++
          fmtTs14 ⟨2024, 1, 2, 3, 4, 5, 6⟩ ++
          (splitext (secure_filename "report.pdf")).2, 200⟩ ∧
    Rec.get? (upload_file ⟨2024, 1, 2, 3, 4, 5, 6⟩
        (some ⟨"report.pdf", "NEW", "u"⟩) [("report.pdf", "OLD")] true).2
        ((splitext (secure_filename "report.pdf")).1 ++ "_" ++
          fmtTs14 ⟨2024, 1, 2, 3, 4, 5, 6⟩ ++
          (splitext (secure_filename "report.pdf")).2) = some "NEW" ∧
    Rec.get? (upload_file ⟨2024, 1, 2, 3, 4, 5, 6⟩
        (some ⟨"report.pdf", "NEW", "u"⟩) [("report.pdf", "OLD")] true).2
        (secure_filename "report.pdf") =
      Rec.get? [("report.pdf", "OLD")] (secure_filename "report.pdf") ∧
    (Rec.get? (upload_file ⟨2024, 1, 2, 3, 4, 5, 6⟩
        (some ⟨"report.pdf", "NEW", "u"⟩) [("report.pdf", "OLD")] true).2
        (secure_filename "report.pdf")).isSome = true :=
  C9_upload_collision_keeps_both ⟨2024, 1, 2, 3, 4, 5, 6⟩
    ⟨"report.pdf", "NEW", "u"⟩ [("report.pdf", "OLD")] (by decide)
    (by decide) (by decide)

end Fundo
